import Mathlib

/-!
Shallow embedding of `src/private_data/combined_pipeline.py` (the
lyrics2song combined fetch-classify-download pipeline) and proofs about
its quality classifier, retry wrappers, download completeness check,
per-identifier state machine, work-set computation and progress-set
serialization.

Strings are modelled as `List Char` (Python `len` counts code points, as
does `List.length` here).  Python's `\d` in the timestamp regex is
modelled as an ASCII digit and `str.strip()` as stripping the ASCII
whitespace characters; the lyric inputs the claims exercise contain only
those.
-/

namespace CombinedPipeline

/-- Python module constant `MAX_RETRIES = 3`. -/
def MAX_RETRIES : Nat := 3

/-- Python module constant `RETRY_DELAY = 2` (seconds). -/
def RETRY_DELAY : Nat := 2

/-- Python module constant `MIN_LYRIC_LENGTH = 100`. -/
def MIN_LYRIC_LENGTH : Nat := 100

/-- Python module constant `MIN_ENGLISH_SEGMENTS = 6`. -/
def MIN_ENGLISH_SEGMENTS : Nat := 6

/-- Whitespace recognised by `str.strip()` (ASCII part). -/
def pySpace (c : Char) : Bool :=
  c = ' ' ∨ c = '\t' ∨ c = '\n' ∨ c = '\r' ∨ c = '\x0b' ∨ c = '\x0c'

/-- Python `str.strip()`: drop leading and trailing whitespace. -/
def pyStrip (l : List Char) : List Char :=
  ((l.dropWhile pySpace).reverse.dropWhile pySpace).reverse

/-- ASCII decimal digit, the `\d` of the timestamp pattern. -/
def isDig (c : Char) : Bool := '0' ≤ c ∧ c ≤ '9'

/-- Attempt to match the regex `\[\d+:\d+\.\d+\]` at the head of the
input.  On success, return the matched text and the rest of the input.
Because each `\d+` is followed by a delimiter that is not a digit,
greedy matching coincides with maximal munch, so this is exact. -/
def matchTag (l : List Char) : Option (List Char × List Char) :=
  match l with
  | '[' :: r =>
    let d1 := r.takeWhile isDig
    let r1 := r.dropWhile isDig
    if d1.isEmpty then none else
    match r1 with
    | ':' :: r2 =>
      let d2 := r2.takeWhile isDig
      let r3 := r2.dropWhile isDig
      if d2.isEmpty then none else
      match r3 with
      | '.' :: r4 =>
        let d3 := r4.takeWhile isDig
        let r5 := r4.dropWhile isDig
        if d3.isEmpty then none else
        match r5 with
        | ']' :: r6 =>
          some ('[' :: d1 ++ ':' :: d2 ++ '.' :: d3 ++ [']'], r6)
        | _ => none
      | _ => none
    | _ => none
  | _ => none

/-- Left-to-right scan implementing both
`re.split(r'\[\d+:\d+\.\d+\]', s)` (first component) and
`re.findall(r'\[\d+:\d+\.\d+\]', s)` (second component).  `fuel` bounds
the recursion; any `fuel ≥ l.length` yields the scan of `l`. -/
def scanAux (fuel : Nat) (acc : List Char) (l : List Char) :
    List (List Char) × List (List Char) :=
  match fuel, l with
  | _, [] => ([acc.reverse], [])
  | 0, rest => ([acc.reverse ++ rest], [])
  | fuel + 1, c :: rest =>
    match matchTag (c :: rest) with
    | some (tag, r) =>
      let p := scanAux fuel [] r
      (acc.reverse :: p.1, tag :: p.2)
    | none => scanAux fuel (c :: acc) rest

/-- The pair `(re.split(pat, txt), re.findall(pat, txt))` for the timestamp
pattern. -/
def scanLyric (txt : List Char) : List (List Char) × List (List Char) :=
  scanAux txt.length [] txt

/-- Lines 70-73: pair `timestamp_matches[i]` with `segments[i].strip()`
for `i in range(min(len(segments), len(timestamp_matches)))`, keeping
only pairs whose stripped text is non-empty. -/
def pairedSegments (txt : List Char) : List (List Char × List Char) :=
  let segments := (scanLyric txt).1
  let timestamp_matches := (scanLyric txt).2
  (List.range (min segments.length timestamp_matches.length)).filterMap
    fun i =>
      let s := pyStrip (segments.getD i [])
      if s.isEmpty then none else some (timestamp_matches.getD i [], s)

/-- Function `has_non_ascii_characters`: any character with ordinal above 127. -/
def has_non_ascii_characters (text : List Char) : Bool :=
  text.any fun c => 127 < c.toNat

/-- Lines 76-77: keep only paired segments whose text is all-ASCII. -/
def ascii_segments (txt : List Char) : List (List Char × List Char) :=
  (pairedSegments txt).filter fun ts => ¬ has_non_ascii_characters ts.2

/-- Line 84: rejoin surviving pairs as newline-separated `tag+text`. -/
def joinSegments (ps : List (List Char × List Char)) : List Char :=
  List.intercalate ['\n'] (ps.map fun ts => ts.1 ++ ts.2)

/-- The `lrc` sub-object of a lyric API body. -/
structure Lrc where
  lyric : Option (List Char)
  deriving Repr, DecidableEq

/-- A decoded lyric API response body: `{code:int, lrc:{lyric:string}}`.
`lrc = none` models a missing `'lrc'` key, `lyric = none` a missing
`'lyric'` key. -/
structure LyricBody where
  code : Nat
  lrc : Option Lrc
  deriving Repr, DecidableEq

/-- Function `is_good_lyric` with the two module constants as parameters
(`minLen` for `MIN_LYRIC_LENGTH`, `minSegs` for `MIN_ENGLISH_SEGMENTS`).
The Python guard `not lyric_data['lrc'].get('lyric')` is true both for a
missing key and for an empty lyric string. -/
def is_good_lyricWith (minLen minSegs : Nat) (lyric_data : Option LyricBody) :
    Bool × Option (List Char) :=
  match lyric_data with
  | none => (false, none)
  | some d =>
    match d.lrc with
    | none => (false, none)
    | some lr =>
      match lr.lyric with
      | none => (false, none)
      | some lyric_text =>
        if lyric_text.isEmpty then (false, none)
        else if lyric_text.length < minLen then (false, none)
        else
          let ascii := ascii_segments lyric_text
          if ascii.length < minSegs then (false, none)
          else (true, some (joinSegments ascii))

/-- Function `is_good_lyric` at the module's default constants. -/
def is_good_lyric (lyric_data : Option LyricBody) : Bool × Option (List Char) :=
  is_good_lyricWith MIN_LYRIC_LENGTH MIN_ENGLISH_SEGMENTS lyric_data

/-- Song identifiers are the stripped lines of the input file. -/
abbrev SongId := List Char

/-- Outcome of one `requests.get` call against an API endpoint. -/
inductive ApiResp (β : Type) where
  | httpError (status : Nat)
  | exn
  | ok (body : β)

/-- Result of `get_song_lyric` together with the number of attempts the
loop consumed and the total seconds slept between attempts. -/
structure LyricFetchOut where
  result : Option LyricBody
  attempts : Nat
  delay : Nat
  deriving Repr, DecidableEq

/-- Body of the retry loop of `get_song_lyric` (lines 28-45): `attempt`
is the index of the current attempt, `rem` the number of attempts still
allowed (initially `MAX_RETRIES`).  An HTTP 200 response returns at
once: the body when its `code` field is 200, otherwise `None` with no
retry.  A non-200 status or an exception falls through; if attempts
remain, the loop sleeps `RETRY_DELAY` seconds and retries. -/
def get_song_lyricAux (resp : Nat → ApiResp LyricBody) :
    Nat → Nat → LyricFetchOut
  | _, 0 => ⟨none, 0, 0⟩
  | attempt, rem + 1 =>
    match resp attempt with
    | .ok data => if data.code = 200 then ⟨some data, 1, 0⟩ else ⟨none, 1, 0⟩
    | _ =>
      if rem = 0 then ⟨none, 1, 0⟩
      else
        let r := get_song_lyricAux resp (attempt + 1) rem
        ⟨r.result, r.attempts + 1, r.delay + RETRY_DELAY⟩

/-- Function `get_song_lyric`, driven by an oracle giving each attempt's
response. -/
def get_song_lyric (resp : Nat → ApiResp LyricBody) : LyricFetchOut :=
  get_song_lyricAux resp 0 MAX_RETRIES

/-- One element of the `data` array of a `/song/url` response body. -/
structure UrlEntry where
  url : Option (List Char)
  size : Option Nat
  type : Option (List Char)
  br : Option Nat
  deriving Repr, DecidableEq

/-- A decoded `/song/url` response body: `{code:int, data:[...]}`. -/
structure UrlBody where
  code : Nat
  data : List UrlEntry
  deriving Repr, DecidableEq

/-- The descriptor dict built by `get_song_url` (lines 102-108). -/
structure SongData where
  id : SongId
  url : List Char
  size : Option Nat
  type : Option (List Char)
  br : Option Nat
  deriving Repr, DecidableEq

/-- Python truthiness of the `url` JSON field: neither null nor the
empty string. -/
def urlTruthy : Option (List Char) → Bool
  | none => false
  | some u => ¬ u.isEmpty

/-- Result of `get_song_url`: the descriptor (if any), the updated
`no_url_ids` set, attempts consumed and seconds slept. -/
structure UrlFetchOut where
  result : Option SongData
  no_url_ids : List SongId
  attempts : Nat
  delay : Nat

/-- Line 100: `data['code'] == 200 and data['data'] and
data['data'][0]['url']`. -/
def hasUsableUrl (data : UrlBody) : Bool :=
  data.code = 200 ∧ ¬ data.data.isEmpty ∧
    urlTruthy (data.data.headD ⟨none, none, none, none⟩).url

/-- Lines 101-108: the descriptor dict assembled from `data['data'][0]`. -/
def mkSongData (song_id : SongId) (data : UrlBody) : SongData :=
  let sd := data.data.headD ⟨none, none, none, none⟩
  { id := song_id, url := sd.url.getD [], size := sd.size,
    type := sd.type, br := sd.br }

/-- Body of the retry loop of `get_song_url` (lines 95-122).  An HTTP
200 response whose body has `code = 200`, a non-empty `data` array and a
truthy `data[0].url` yields a descriptor; any other HTTP 200 body adds
the identifier to `no_url_ids` and returns `None` with no retry.
Non-200 statuses and exceptions are retried after a `RETRY_DELAY`
sleep. -/
def get_song_urlAux (song_id : SongId) (resp : Nat → ApiResp UrlBody) :
    Nat → Nat → List SongId → UrlFetchOut
  | _, 0, no_url_ids => ⟨none, no_url_ids, 0, 0⟩
  | attempt, rem + 1, no_url_ids =>
    match resp attempt with
    | .ok data =>
      if hasUsableUrl data then
        ⟨some (mkSongData song_id data), no_url_ids, 1, 0⟩
      else ⟨none, song_id :: no_url_ids, 1, 0⟩
    | _ =>
      if rem = 0 then ⟨none, no_url_ids, 1, 0⟩
      else
        let r := get_song_urlAux song_id resp (attempt + 1) rem no_url_ids
        ⟨r.result, r.no_url_ids, r.attempts + 1, r.delay + RETRY_DELAY⟩

/-- Function `get_song_url`: returns `None` immediately, with no network
attempt, when the identifier is already in `no_url_ids` (lines
90-91). -/
def get_song_url (song_id : SongId) (resp : Nat → ApiResp UrlBody)
    (no_url_ids : List SongId) : UrlFetchOut :=
  if song_id ∈ no_url_ids then ⟨none, no_url_ids, 0, 0⟩
  else get_song_urlAux song_id resp 0 MAX_RETRIES no_url_ids

/-- The outcome of a URL fetch whose first decisive response is `b`, at
attempt index `k`: a usable body yields the descriptor and leaves
`no_url_ids` alone; an unusable one records the identifier permanently.
Either way the loop stops at attempt `k + 1` after `k` sleeps. -/
def urlOutcome (song_id : SongId) (no_url_ids : List SongId) (b : UrlBody)
    (k : Nat) : UrlFetchOut :=
  if hasUsableUrl b then
    ⟨some (mkSongData song_id b), no_url_ids, k + 1, RETRY_DELAY * k⟩
  else ⟨none, song_id :: no_url_ids, k + 1, RETRY_DELAY * k⟩

/-- A directory of files modelled as an association of path to size. -/
abbrev FileSys := List (List Char × Nat)

/-- Size of the file at `p`, or `none` when no such file exists. -/
def fsLookup (fs : FileSys) (p : List Char) : Option Nat :=
  (fs.find? fun e => e.1 = p).map fun e => e.2

/-- Delete the file at `p` (no-op when absent), as `os.remove` guarded
by `os.path.exists`. -/
def fsErase (fs : FileSys) (p : List Char) : FileSys :=
  fs.filter fun e => ¬ (e.1 = p)

/-- Create or overwrite the file at `p` with `sz` bytes. -/
def fsWrite (fs : FileSys) (p : List Char) (sz : Nat) : FileSys :=
  (p, sz) :: fsErase fs p

/-- Outcome of one download attempt: non-200 status, an exception while
streaming, or a complete body of `size` bytes. -/
inductive DlResp where
  | httpError (status : Nat)
  | exn
  | ok (size : Nat)

/-- Result of `download_song`: returned path (if any), the resulting
songs directory, download attempts consumed and seconds slept. -/
structure DlOut where
  result : Option (List Char)
  fs : FileSys
  attempts : Nat
  delay : Nat

/-- The retry loop of `download_song` (lines 146-171): a successful
attempt streams the body to `song_path + ".tmp"` and then moves it onto
`song_path`; an exception removes the temporary file if present; non-200
statuses and exceptions are retried after a `RETRY_DELAY` sleep, and an
exhausted budget returns `None`. -/
def download_songAux (song_path : List Char) (resp : Nat → DlResp) :
    Nat → Nat → FileSys → DlOut
  | _, 0, fs => ⟨none, fs, 0, 0⟩
  | attempt, rem + 1, fs =>
    let temp_path := song_path ++ ".tmp".data
    match resp attempt with
    | .ok sz =>
      let fs1 := fsWrite fs temp_path sz
      let fs2 := fsWrite (fsErase fs1 temp_path) song_path sz
      ⟨some song_path, fs2, 1, 0⟩
    | .httpError _ =>
      if rem = 0 then ⟨none, fs, 1, 0⟩
      else
        let r := download_songAux song_path resp (attempt + 1) rem fs
        ⟨r.result, r.fs, r.attempts + 1, r.delay + RETRY_DELAY⟩
    | .exn =>
      let fs1 := fsErase fs temp_path
      if rem = 0 then ⟨none, fs1, 1, 0⟩
      else
        let r := download_songAux song_path resp (attempt + 1) rem fs1
        ⟨r.result, r.fs, r.attempts + 1, r.delay + RETRY_DELAY⟩

/-- The file extension used in the song path.  `get_song_url` always
puts a `type` key in the descriptor, so Python's
`song_data.get('type', 'mp3')` returns its value even when that value is
null, which the f-string then renders as the text `None`. -/
def fileTypeOf (t : Option (List Char)) : List Char :=
  t.getD "None".data

/-- Function `download_song` (lines 124-171).  When the final file already
exists, an unknown or matching expected size returns the path with no
deletion and no download attempt; a mismatching size deletes the stale
file and runs the download loop. -/
def download_song (song_data : SongData) (fs : FileSys)
    (resp : Nat → DlResp) : DlOut :=
  let song_path := song_data.id ++ '.' :: fileTypeOf song_data.type
  match fsLookup fs song_path with
  | some file_size =>
    match song_data.size with
    | none => ⟨some song_path, fs, 0, 0⟩
    | some expected_size =>
      if file_size = expected_size then ⟨some song_path, fs, 0, 0⟩
      else download_songAux song_path resp 0 MAX_RETRIES (fsErase fs song_path)
  | none => download_songAux song_path resp 0 MAX_RETRIES fs

/-- The shared on-disk and in-memory state seen by `process_song`:
the lyrics directory (as the set of identifiers with a `{id}.txt`
artifact), the songs directory, and the two progress sets. -/
structure PipeState where
  lyricFiles : List SongId
  songsFs : FileSys
  bad_lyrics_ids : List SongId
  no_url_ids : List SongId

/-- Responses the remote API would give to each network attempt of one
`process_song` call. -/
structure Oracle where
  lyricResp : Nat → ApiResp LyricBody
  urlResp : Nat → ApiResp UrlBody
  dlResp : Nat → DlResp

/-- Lines 196-200: the song file exists under either supported
extension. -/
def songExists (fs : FileSys) (song_id : SongId) : Bool :=
  (fsLookup fs (song_id ++ '.' :: "mp3".data)).isSome ∨
    (fsLookup fs (song_id ++ '.' :: "m4a".data)).isSome

/-- Python truthiness of the `processed_lyrics` component. -/
def truthyOpt : Option (List Char) → Bool
  | none => false
  | some p => ¬ p.isEmpty

/-- The URL-fetch-then-download step shared by both branches of
`process_song` (lines 204-206 and 224-226). -/
def tryUrlAndDownload (song_id : SongId) (st : PipeState) (o : Oracle) :
    PipeState :=
  let u := get_song_url song_id o.urlResp st.no_url_ids
  let st1 := { st with no_url_ids := u.no_url_ids }
  match u.result with
  | some sd => { st1 with songsFs := (download_song sd st1.songsFs o.dlResp).fs }
  | none => st1

/-- Function `process_song` (lines 185-234), the per-identifier state machine:
an existing lyric artifact short-circuits to (best-effort) download; a
known-bad identifier returns failure untouched; otherwise the lyric is
fetched and classified, an accepted lyric is written and a download
attempted, a rejected one adds the identifier to `bad_lyrics_ids`, and
an absent payload changes nothing. -/
def process_song (song_id : SongId) (st : PipeState) (o : Oracle) :
    PipeState × Bool :=
  if song_id ∈ st.lyricFiles then
    if ¬ songExists st.songsFs song_id ∧ song_id ∉ st.no_url_ids then
      (tryUrlAndDownload song_id st o, true)
    else (st, true)
  else if song_id ∈ st.bad_lyrics_ids then (st, false)
  else
    match (get_song_lyric o.lyricResp).result with
    | some lyric_data =>
      let r := is_good_lyric (some lyric_data)
      if r.1 ∧ truthyOpt r.2 then
        let st1 := { st with lyricFiles := song_id :: st.lyricFiles }
        let st2 :=
          if song_id ∉ st1.no_url_ids then tryUrlAndDownload song_id st1 o
          else st1
        (st2, true)
      else ({ st with bad_lyrics_ids := song_id :: st.bad_lyrics_ids }, false)
    | none => (st, false)

/-- Line 285: an identifier is fully processed when it has both a lyric
and an audio artifact, or is a known-bad identifier. -/
def fully_processed (existing_good_lyrics existing_audio bad_lyrics_ids :
    List SongId) (id : SongId) : Bool :=
  (id ∈ existing_good_lyrics ∧ id ∈ existing_audio) ∨ id ∈ bad_lyrics_ids

/-- Line 288: the work set, computed once up front. -/
def song_ids_to_process (all_song_ids existing_good_lyrics existing_audio
    bad_lyrics_ids : List SongId) : List SongId :=
  all_song_ids.filter fun id =>
    ¬ fully_processed existing_good_lyrics existing_audio bad_lyrics_ids id

/-- Function `save_bad_lyrics_ids` (lines 173-177): the text written to the
progress file, one identifier per line, each followed by a newline. -/
def save_bad_lyrics_ids (bad_lyrics_ids : List SongId) : List Char :=
  (bad_lyrics_ids.map fun id => id ++ ['\n']).flatten

/-- Iteration over the lines of a text file, as Python's `for line in
f`: each line keeps its trailing newline; a final fragment without one
is still yielded. -/
def pyLinesAux (acc : List Char) : List Char → List (List Char)
  | [] => if acc.isEmpty then [] else [acc.reverse]
  | c :: rest =>
    if c = '\n' then (acc.reverse ++ ['\n']) :: pyLinesAux [] rest
    else pyLinesAux (c :: acc) rest

/-- The lines of a text file. -/
def pyLines (l : List Char) : List (List Char) :=
  pyLinesAux [] l

/-- Lines 260-261 and 266-267: parse a progress file with
`{line.strip() for line in f if line.strip()}` (kept here as a list in
file order). -/
def load_ids_file (text : List Char) : List SongId :=
  (pyLines text).filterMap fun line =>
    let s := pyStrip line
    if s.isEmpty then none else some s

/-- Pairing as the spec words it, for comparison with the source's
`pairedSegments`: each timestamp tag is paired with the text segment
immediately following that tag in the original string, which for the
split produced by `re.split` is the segment at index `i + 1`. -/
def pairedSegmentsSpecReading (txt : List Char) : List (List Char × List Char) :=
  let segments := (scanLyric txt).1
  let timestamp_matches := (scanLyric txt).2
  (List.range (min segments.length timestamp_matches.length)).filterMap
    fun i =>
      let s := pyStrip (segments.getD (i + 1) [])
      if s.isEmpty then none else some (timestamp_matches.getD i [], s)

/-- Two-tag lyric exhibiting the pairing offset. -/
def c1txt : List Char := ("[0:0.0]a[0:0.1]b").data

/-- The scenario lyric of the spec, padded with `x` characters to length
102 so it passes the 100-character minimum. -/
def c2txt : List Char :=
  ("[00:01.00]hello\n[00:02.00]你好\n[00:03.00]world\n[00:04.00]test\n[00:05.00]more\n[00:06.00]lines" ++
    "xxxxxxxxxxxx").data

/-- The scenario lyric wrapped as an API payload. -/
def c2payload : Option LyricBody :=
  some { code := 200, lrc := some { lyric := some c2txt } }

/-- What the code produces on the scenario lyric. -/
def c2actual : List Char :=
  ("[00:02.00]hello\n[00:04.00]world\n[00:05.00]test\n[00:06.00]more").data

/-- The artifact the spec's scenario predicts: the five ASCII segments,
each preceded by its own tag. -/
def c2claimed : List Char :=
  ("[00:01.00]hello\n[00:03.00]world\n[00:04.00]test\n[00:05.00]more\n[00:06.00]lines").data

/-- An empty pipeline state for concrete instantiations. -/
def st0 : PipeState := ⟨[], [], [], []⟩

/-- An oracle whose every network attempt raises. -/
def o0 : Oracle := ⟨fun _ => ApiResp.exn, fun _ => ApiResp.exn, fun _ => DlResp.exn⟩

/-- A songs directory holding one 5-byte audio file. -/
def c8fs : FileSys := [(("1.mp3").data, 5)]

/-- A descriptor with unknown expected size for the existing file. -/
def c8unknown : SongData :=
  { id := ("1").data, url := ("u").data, size := none,
    type := some (("mp3").data), br := none }

/-- A descriptor whose expected size disagrees with the existing
file. -/
def c8mismatch : SongData :=
  { id := ("1").data, url := ("u").data, size := some 7,
    type := some (("mp3").data), br := none }

/-! ## Helper lemmas -/

/-- An index loop over `range (min |as| |bs|)` reading both lists at the
index is the same as a traversal of `as.zip bs`. -/
lemma filterMap_range_min_getD {α β γ : Type} (f : α → β → Option γ)
    (da : α) (db : β) :
    ∀ (as : List α) (bs : List β),
      ((List.range (min as.length bs.length)).filterMap fun i =>
        f (as.getD i da) (bs.getD i db)) =
      (as.zip bs).filterMap fun p => f p.1 p.2
  | [], bs => by simp
  | a :: as, [] => by simp
  | a :: as, b :: bs => by
    have ih := filterMap_range_min_getD f da db as bs
    simp only [List.getD, List.get?_eq_getElem?] at ih
    simp only [List.length_cons, Nat.succ_min_succ, List.range_succ_eq_map,
      List.filterMap_cons, List.filterMap_map, Function.comp_def, List.getD,
      List.getElem?_cons_zero, List.getElem?_cons_succ, Option.getD_some,
      List.zip_cons_cons]
    cases h : f a b <;> simp [h, ih]

/-! ## C1 -/

/-- C1: the claim reads the pairing as tag `i` with the segment
immediately following tag `i`; the code pairs tag `i` with split
segment `i`, the text immediately preceding tag `i`.  On a two-tag
lyric the code produces the single pair `([0:0.1], "a")`, where `"a"`
precedes that tag, while the claim's reading yields two pairs with
each tag next to its own text. -/
theorem c1_pairing_counterexample :
    pairedSegments c1txt = [(("[0:0.1]").data, ("a").data)] ∧
    pairedSegmentsSpecReading c1txt =
      [(("[0:0.0]").data, ("a").data), (("[0:0.1]").data, ("b").data)] ∧
    pairedSegments c1txt ≠ pairedSegmentsSpecReading c1txt := by
  refine ⟨by decide, by decide, by decide⟩

/-- C1 (amended): the pairing step pairs the `i`-th timestamp tag with
the `i`-th split segment (the text immediately preceding that tag),
i.e. it is the positional zip of split segments with tags, truncated to
`min(segment count, tag count)`; it keeps only pairs whose text is
non-empty after trimming, produces at most `min(segment count, tag
count)` pairs, and every produced pair arises from an in-range index,
so no index is ever out of range. -/
theorem c1_pairing (txt : List Char) :
    pairedSegments txt =
      (((scanLyric txt).1.zip (scanLyric txt).2).filterMap fun p =>
        if (pyStrip p.1).isEmpty then none else some (p.2, pyStrip p.1)) ∧
    (pairedSegments txt).length ≤
      min (scanLyric txt).1.length (scanLyric txt).2.length ∧
    ∀ p ∈ pairedSegments txt,
      ∃ i < min (scanLyric txt).1.length (scanLyric txt).2.length,
        (pyStrip ((scanLyric txt).1.getD i [])).isEmpty = false ∧
        p = ((scanLyric txt).2.getD i [], pyStrip ((scanLyric txt).1.getD i [])) := by
  have hzip :
      pairedSegments txt =
        (((scanLyric txt).1.zip (scanLyric txt).2).filterMap fun p =>
          if (pyStrip p.1).isEmpty then none else some (p.2, pyStrip p.1)) := by
    simpa only [pairedSegments] using
      filterMap_range_min_getD
        (fun s t => if (pyStrip s).isEmpty then none else some (t, pyStrip s))
        [] [] (scanLyric txt).1 (scanLyric txt).2
  refine ⟨hzip, ?_, ?_⟩
  · calc (pairedSegments txt).length
        ≤ ((scanLyric txt).1.zip (scanLyric txt).2).length := by
          rw [hzip]; exact List.length_filterMap_le _ _
      _ = min (scanLyric txt).1.length (scanLyric txt).2.length :=
          List.length_zip _ _
  · intro p hp
    simp only [pairedSegments, List.mem_filterMap, List.mem_range] at hp
    obtain ⟨i, hi, hfi⟩ := hp
    by_cases he : (pyStrip ((scanLyric txt).1.getD i [])).isEmpty = true
    · rw [if_pos he] at hfi
      exact absurd hfi (by simp)
    · rw [if_neg he] at hfi
      exact ⟨i, hi, by simpa using he, (Option.some.inj hfi).symm⟩

/-- C1 witness: the amended pairing characterization instantiated on the
two-tag lyric. -/
theorem c1_pairing_witness :
    ∃ i < min (scanLyric c1txt).1.length (scanLyric c1txt).2.length,
      (pyStrip ((scanLyric c1txt).1.getD i [])).isEmpty = false ∧
      ((("[0:0.1]").data, ("a").data) : List Char × List Char) =
        ((scanLyric c1txt).2.getD i [], pyStrip ((scanLyric c1txt).1.getD i [])) :=
  (c1_pairing c1txt).2.2 (("[0:0.1]").data, ("a").data) (by decide)

/-! ## C2 -/

/-- C2: on the spec's scenario lyric with segment threshold 3, the
claimed artifact pairs each of the five ASCII segments with its own tag
and keeps `lines`; the code instead drops the final `lines` segment (it
is past the `min` truncation) and pairs every kept segment with the
following tag, so the artifact differs from the claimed one. -/
theorem c2_scenario_counterexample :
    (is_good_lyricWith MIN_LYRIC_LENGTH 3 c2payload).1 = true ∧
    (is_good_lyricWith MIN_LYRIC_LENGTH 3 c2payload).2 ≠ some c2claimed := by
  refine ⟨by decide, by decide⟩

/-- C2 (amended): on the scenario lyric with segment threshold 3 the
classifier accepts, and the artifact is exactly the four pairs
`[00:02.00]hello`, `[00:04.00]world`, `[00:05.00]test`, `[00:06.00]more`
joined in original order: the `你好` segment is dropped by the ASCII
gate, the final `lines` segment is dropped by the `min` truncation, and
each kept text is preceded by the tag that follows it in the input. -/
theorem c2_scenario :
    is_good_lyricWith MIN_LYRIC_LENGTH 3 c2payload = (true, some c2actual) := by
  decide

/-! ## C3 -/

/-- C3: the classifier rejects an absent payload, a payload without an
`lrc` object, a missing (or empty) lyric string and a lyric below the
minimum length; a lyric with zero timestamp tags has zero paired
segments and is rejected; and once a payload passes those guards it is
accepted exactly when the surviving all-ASCII segment count reaches
`MIN_ENGLISH_SEGMENTS`, in which case the artifact is the surviving
pairs rejoined as `tag+text` lines in original order. -/
theorem c3_classifier_gates :
    is_good_lyric none = (false, none) ∧
    (∀ b : LyricBody, b.lrc = none → is_good_lyric (some b) = (false, none)) ∧
    (∀ (b : LyricBody) (lr : Lrc), b.lrc = some lr → lr.lyric = none →
      is_good_lyric (some b) = (false, none)) ∧
    (∀ (b : LyricBody) (lr : Lrc) (txt : List Char), b.lrc = some lr →
      lr.lyric = some txt → txt.length < MIN_LYRIC_LENGTH →
      is_good_lyric (some b) = (false, none)) ∧
    (∀ txt : List Char, (scanLyric txt).2 = [] → pairedSegments txt = []) ∧
    (∀ (b : LyricBody) (lr : Lrc) (txt : List Char), b.lrc = some lr →
      lr.lyric = some txt → (scanLyric txt).2 = [] →
      is_good_lyric (some b) = (false, none)) ∧
    (∀ (b : LyricBody) (lr : Lrc) (txt : List Char), b.lrc = some lr →
      lr.lyric = some txt → MIN_LYRIC_LENGTH ≤ txt.length →
      ((is_good_lyric (some b)).1 = true ↔
        MIN_ENGLISH_SEGMENTS ≤ (ascii_segments txt).length) ∧
      (MIN_ENGLISH_SEGMENTS ≤ (ascii_segments txt).length →
        is_good_lyric (some b) =
          (true, some (joinSegments (ascii_segments txt))))) := by
  have hzero : ∀ txt : List Char, (scanLyric txt).2 = [] →
      pairedSegments txt = [] := by
    intro txt h
    simp [pairedSegments, h]
  refine ⟨rfl, ?_, ?_, ?_, hzero, ?_, ?_⟩
  · intro b h
    simp [is_good_lyric, is_good_lyricWith, h]
  · intro b lr h1 h2
    simp [is_good_lyric, is_good_lyricWith, h1, h2]
  · intro b lr txt h1 h2 hlen
    by_cases he : txt.isEmpty = true
    · simp [is_good_lyric, is_good_lyricWith, h1, h2, he]
    · simp [is_good_lyric, is_good_lyricWith, h1, h2, he, hlen]
  · intro b lr txt h1 h2 htags
    have hascii : ascii_segments txt = [] := by
      simp [ascii_segments, hzero txt htags]
    by_cases he : txt.isEmpty = true
    · simp [is_good_lyric, is_good_lyricWith, h1, h2, he]
    · by_cases hlen : txt.length < MIN_LYRIC_LENGTH
      · simp [is_good_lyric, is_good_lyricWith, h1, h2, he, hlen]
      · simp [is_good_lyric, is_good_lyricWith, h1, h2, he, hlen, hascii,
          MIN_ENGLISH_SEGMENTS]
  · intro b lr txt h1 h2 hlen
    have he : ¬ txt.isEmpty = true := by
      intro he
      rw [List.isEmpty_iff] at he
      rw [he] at hlen
      simp [MIN_LYRIC_LENGTH] at hlen
    have hlt : ¬ txt.length < MIN_LYRIC_LENGTH := Nat.not_lt.mpr hlen
    have hval : is_good_lyric (some b) =
        if (ascii_segments txt).length < MIN_ENGLISH_SEGMENTS then (false, none)
        else (true, some (joinSegments (ascii_segments txt))) := by
      simp [is_good_lyric, is_good_lyricWith, h1, h2, he, hlt]
    constructor
    · rw [hval]
      split_ifs with hc
      · simp
        omega
      · simp
        omega
    · intro hge
      rw [hval, if_neg (Nat.not_lt.mpr hge)]

/-- C3 witness: the gate conjuncts applied at concrete payloads. -/
theorem c3_classifier_gates_witness :
    is_good_lyric (some { code := 200, lrc := none }) = (false, none) ∧
    is_good_lyric (some { code := 200, lrc := some { lyric := some (("abc").data) } }) =
      (false, none) :=
  ⟨c3_classifier_gates.2.1 { code := 200, lrc := none } rfl,
   c3_classifier_gates.2.2.2.1 _ { lyric := some (("abc").data) } (("abc").data)
     rfl rfl (by decide)⟩

/-! ## C4 -/

/-- C4: a paired segment whose text contains a character with ordinal
above 127 is excluded from the surviving segments, and a paired segment
whose text is entirely ASCII is retained, independently of the other
segments. -/
theorem c4_ascii_gate (txt : List Char) (p : List Char × List Char)
    (hp : p ∈ pairedSegments txt) :
    (has_non_ascii_characters p.2 = true → p ∉ ascii_segments txt) ∧
    (has_non_ascii_characters p.2 = false → p ∈ ascii_segments txt) := by
  constructor
  · intro h hmem
    rw [ascii_segments, List.mem_filter] at hmem
    simp [h] at hmem
  · intro h
    rw [ascii_segments, List.mem_filter]
    exact ⟨hp, by simp [h]⟩

/-- C4 witness: on `a[0:0.0]é[1:1.1]b` the all-ASCII pair survives and
the pair containing `é` is excluded. -/
theorem c4_ascii_gate_witness :
    ((("[0:0.0]").data, ("a").data) ∈ ascii_segments (("a[0:0.0]é[1:1.1]b").data)) ∧
    ((("[1:1.1]").data, ("é").data) ∉ ascii_segments (("a[0:0.0]é[1:1.1]b").data)) :=
  ⟨(c4_ascii_gate (("a[0:0.0]é[1:1.1]b").data) _ (by decide)).2 (by decide),
   (c4_ascii_gate (("a[0:0.0]é[1:1.1]b").data) _ (by decide)).1 (by decide)⟩

/-! ## C9 -/

/-- C9: an identifier is in the work set exactly when it is in the
input list and neither rejected nor in possession of both a lyric and
an audio artifact; in particular an identifier with a lyric artifact
but no audio stays in the work set. -/
theorem c9_work_set (all lyrics audio bad : List SongId) (id : SongId) :
    (id ∈ song_ids_to_process all lyrics audio bad ↔
      id ∈ all ∧ ¬ (id ∈ bad ∨ (id ∈ lyrics ∧ id ∈ audio))) ∧
    (id ∈ all → id ∈ lyrics → id ∉ audio → id ∉ bad →
      id ∈ song_ids_to_process all lyrics audio bad) := by
  have hiff : id ∈ song_ids_to_process all lyrics audio bad ↔
      id ∈ all ∧ ¬ (id ∈ bad ∨ (id ∈ lyrics ∧ id ∈ audio)) := by
    simp only [song_ids_to_process, fully_processed, List.mem_filter,
      decide_eq_true_eq]
    tauto
  exact ⟨hiff, fun h1 h2 h3 h4 => hiff.mpr ⟨h1, by tauto⟩⟩

/-- C9 witness: an identifier with a lyric artifact but no audio is in
the work set of a concrete scheduler state. -/
theorem c9_work_set_witness :
    ("1").data ∈ song_ids_to_process [("1").data, ("2").data]
      [("1").data] [("3").data] [("2").data] :=
  (c9_work_set [("1").data, ("2").data] [("1").data] [("3").data]
    [("2").data] (("1").data)).2 (by decide) (by decide) (by decide) (by decide)

/-! ## C10 -/

/-- Dropping while a predicate holds leaves a list with no satisfying
elements unchanged. -/
lemma dropWhile_eq_self_of_clean {α : Type} {p : α → Bool} :
    ∀ l : List α, (∀ c ∈ l, p c = false) → l.dropWhile p = l
  | [], _ => rfl
  | c :: cs, h => by
    rw [List.dropWhile_cons, h c (List.mem_cons_self c cs)]
    simp

/-- Stripping a whitespace-free non-empty identifier with its trailing
newline recovers the identifier. -/
lemma pyStrip_clean_newline (id : List Char) (hne : id ≠ [])
    (hclean : ∀ c ∈ id, pySpace c = false) :
    pyStrip (id ++ ['\n']) = id := by
  have h1 : (id ++ ['\n']).dropWhile pySpace = id ++ ['\n'] := by
    obtain ⟨c, cs, rfl⟩ := List.exists_cons_of_ne_nil hne
    rw [List.cons_append, List.dropWhile_cons, hclean c (by simp)]
    simp
  rw [pyStrip, h1]
  have h2 : (id ++ ['\n']).reverse = '\n' :: id.reverse := by
    simp
  rw [h2, List.dropWhile_cons]
  have h3 : pySpace '\n' = true := by decide
  rw [h3]
  simp only [if_true]
  rw [dropWhile_eq_self_of_clean id.reverse
    (fun c hc => hclean c (List.mem_reverse.mp hc)), List.reverse_reverse]

/-- Reading the lines of a text that starts with a newline-free chunk
followed by a newline yields that chunk (with its newline) as the first
line. -/
lemma pyLinesAux_append (id : List Char) (hid : '\n' ∉ id) :
    ∀ (acc t : List Char),
      pyLinesAux acc (id ++ '\n' :: t) =
        (acc.reverse ++ id ++ ['\n']) :: pyLinesAux [] t := by
  induction id with
  | nil =>
    intro acc t
    simp [pyLinesAux]
  | cons c cs ih =>
    intro acc t
    have hc : ¬ c = '\n' := fun h => hid (h ▸ List.mem_cons_self c cs)
    have hcs : '\n' ∉ cs := fun h => hid (List.mem_cons_of_mem c h)
    rw [List.cons_append]
    show pyLinesAux acc (c :: (cs ++ '\n' :: t)) = _
    rw [pyLinesAux]
    simp only [hc, if_false]
    rw [ih hcs (c :: acc) t]
    simp

/-- C10: serializing a list of non-empty, whitespace-free identifiers
with the progress-set writer (one per line, newline-terminated) and
re-parsing the text with the loader's strip-and-drop-blank
comprehension yields the identifiers back exactly, so the save/load
round trip is the identity on such progress sets. -/
theorem c10_save_load_roundtrip :
    ∀ ids : List SongId,
      (∀ id ∈ ids, id ≠ [] ∧ ∀ c ∈ id, pySpace c = false) →
      load_ids_file (save_bad_lyrics_ids ids) = ids := by
  intro ids h
  induction ids with
  | nil => rfl
  | cons id rest ih =>
    obtain ⟨hne, hclean⟩ := h id (List.mem_cons_self id rest)
    have hrest := ih fun x hx => h x (List.mem_cons_of_mem id hx)
    have hnl : '\n' ∉ id := by
      intro hmem
      have := hclean '\n' hmem
      simp [pySpace] at this
    have hsave : save_bad_lyrics_ids (id :: rest) =
        id ++ '\n' :: save_bad_lyrics_ids rest := by
      simp [save_bad_lyrics_ids]
    rw [hsave, load_ids_file, pyLines, pyLinesAux_append id hnl [] _]
    simp only [List.reverse_nil, List.nil_append]
    rw [List.filterMap_cons]
    rw [pyStrip_clean_newline id hne hclean]
    have hieq : id.isEmpty = false := by
      simpa using hne
    simp only [hieq, if_false, Bool.false_eq_true]
    rw [← pyLines, ← load_ids_file, hrest]

/-- C10 witness: the round trip on a concrete two-identifier set. -/
theorem c10_save_load_roundtrip_witness :
    load_ids_file (save_bad_lyrics_ids [("10").data, ("27").data]) =
      [("10").data, ("27").data] :=
  c10_save_load_roundtrip [("10").data, ("27").data] (by decide)

/-! ## Step lemmas for the retry loops and the state machine -/

/-- Every response is either decisive (HTTP 200 with a body) or
transient. -/
lemma apiResp_cases {β : Type} (r : ApiResp β) :
    (∃ b, r = ApiResp.ok b) ∨ ∀ b, r ≠ ApiResp.ok b := by
  cases r with
  | ok b => exact Or.inl ⟨b, rfl⟩
  | httpError s => exact Or.inr fun b h => ApiResp.noConfusion h
  | exn => exact Or.inr fun b h => ApiResp.noConfusion h

/-- A decisive attempt ends the lyric fetch loop at once. -/
lemma get_song_lyricAux_ok (resp : Nat → ApiResp LyricBody) (a n : Nat)
    (b : LyricBody) (h : resp a = ApiResp.ok b) :
    get_song_lyricAux resp a (n + 1) =
      ⟨if b.code = 200 then some b else none, 1, 0⟩ := by
  by_cases hc : b.code = 200 <;> simp [get_song_lyricAux, h, hc]

/-- A transient attempt with budget remaining sleeps and retries. -/
lemma get_song_lyricAux_transient (resp : Nat → ApiResp LyricBody) (a n : Nat)
    (h : ∀ b, resp a ≠ ApiResp.ok b) (hn : n ≠ 0) :
    get_song_lyricAux resp a (n + 1) =
      ⟨(get_song_lyricAux resp (a + 1) n).result,
        (get_song_lyricAux resp (a + 1) n).attempts + 1,
        (get_song_lyricAux resp (a + 1) n).delay + RETRY_DELAY⟩ := by
  cases hr : resp a with
  | ok b => exact absurd hr (h b)
  | httpError s => simp [get_song_lyricAux, hr, hn]
  | exn => simp [get_song_lyricAux, hr, hn]

/-- A transient final attempt ends the lyric fetch loop with `None`. -/
lemma get_song_lyricAux_transient_last (resp : Nat → ApiResp LyricBody)
    (a : Nat) (h : ∀ b, resp a ≠ ApiResp.ok b) :
    get_song_lyricAux resp a 1 = ⟨none, 1, 0⟩ := by
  cases hr : resp a with
  | ok b => exact absurd hr (h b)
  | httpError s => simp [get_song_lyricAux, hr]
  | exn => simp [get_song_lyricAux, hr]

/-- Complete case analysis of `get_song_lyric` over the first three
responses. -/
lemma get_song_lyric_cases (resp : Nat → ApiResp LyricBody) :
    (∃ b, resp 0 = ApiResp.ok b ∧
      get_song_lyric resp = ⟨if b.code = 200 then some b else none, 1, 0⟩) ∨
    ((∀ b, resp 0 ≠ ApiResp.ok b) ∧ ∃ b, resp 1 = ApiResp.ok b ∧
      get_song_lyric resp =
        ⟨if b.code = 200 then some b else none, 2, RETRY_DELAY⟩) ∨
    ((∀ b, resp 0 ≠ ApiResp.ok b) ∧ (∀ b, resp 1 ≠ ApiResp.ok b) ∧
      ∃ b, resp 2 = ApiResp.ok b ∧
      get_song_lyric resp =
        ⟨if b.code = 200 then some b else none, 3, 2 * RETRY_DELAY⟩) ∨
    ((∀ b, resp 0 ≠ ApiResp.ok b) ∧ (∀ b, resp 1 ≠ ApiResp.ok b) ∧
      (∀ b, resp 2 ≠ ApiResp.ok b) ∧
      get_song_lyric resp = ⟨none, 3, 2 * RETRY_DELAY⟩) := by
  rcases apiResp_cases (resp 0) with ⟨b0, h0⟩ | h0
  · refine Or.inl ⟨b0, h0, ?_⟩
    exact get_song_lyricAux_ok resp 0 2 b0 h0
  · rcases apiResp_cases (resp 1) with ⟨b1, h1⟩ | h1
    · refine Or.inr (Or.inl ⟨h0, b1, h1, ?_⟩)
      show get_song_lyricAux resp 0 3 = _
      rw [show (3 : Nat) = 2 + 1 from rfl,
        get_song_lyricAux_transient resp 0 2 h0 (by norm_num),
        get_song_lyricAux_ok resp 1 1 b1 h1]
      simp [RETRY_DELAY]
    · rcases apiResp_cases (resp 2) with ⟨b2, h2⟩ | h2
      · refine Or.inr (Or.inr (Or.inl ⟨h0, h1, b2, h2, ?_⟩))
        show get_song_lyricAux resp 0 3 = _
        rw [show (3 : Nat) = 2 + 1 from rfl,
          get_song_lyricAux_transient resp 0 2 h0 (by norm_num),
          show (2 : Nat) = 1 + 1 from rfl,
          get_song_lyricAux_transient resp 1 1 h1 (by norm_num),
          get_song_lyricAux_ok resp 2 0 b2 h2]
        simp [RETRY_DELAY]
      · refine Or.inr (Or.inr (Or.inr ⟨h0, h1, h2, ?_⟩))
        show get_song_lyricAux resp 0 3 = _
        rw [show (3 : Nat) = 2 + 1 from rfl,
          get_song_lyricAux_transient resp 0 2 h0 (by norm_num),
          show (2 : Nat) = 1 + 1 from rfl,
          get_song_lyricAux_transient resp 1 1 h1 (by norm_num),
          get_song_lyricAux_transient_last resp 2 h2]
        simp [RETRY_DELAY]

/-- The URL-then-download step touches neither the lyric artifacts nor
the rejected set. -/
lemma tryUrlAndDownload_preserves (song_id : SongId) (st : PipeState)
    (o : Oracle) :
    (tryUrlAndDownload song_id st o).lyricFiles = st.lyricFiles ∧
    (tryUrlAndDownload song_id st o).bad_lyrics_ids = st.bad_lyrics_ids := by
  rw [tryUrlAndDownload]
  cases (get_song_url song_id o.urlResp st.no_url_ids).result <;> simp

/-- A fresh identifier whose lyric fetch yields no payload leaves the
state untouched and reports failure. -/
lemma process_song_none (song_id : SongId) (st : PipeState) (o : Oracle)
    (h1 : song_id ∉ st.lyricFiles) (h2 : song_id ∉ st.bad_lyrics_ids)
    (hl : (get_song_lyric o.lyricResp).result = none) :
    process_song song_id st o = (st, false) := by
  simp [process_song, h1, h2, hl]

/-- The effect of one `process_song` call on the lyric-artifact set and
the rejected set: either both are untouched (and then the identifier
already had an artifact, was already rejected, or its lyric fetch
returned nothing), or exactly one of the two grows by the fresh
identifier. -/
lemma process_song_effect (song_id : SongId) (st : PipeState) (o : Oracle) :
    ((song_id ∈ st.lyricFiles ∨ song_id ∈ st.bad_lyrics_ids ∨
        (get_song_lyric o.lyricResp).result = none) ∧
      (process_song song_id st o).1.lyricFiles = st.lyricFiles ∧
      (process_song song_id st o).1.bad_lyrics_ids = st.bad_lyrics_ids) ∨
    (song_id ∉ st.lyricFiles ∧ song_id ∉ st.bad_lyrics_ids ∧
      (process_song song_id st o).1.lyricFiles = song_id :: st.lyricFiles ∧
      (process_song song_id st o).1.bad_lyrics_ids = st.bad_lyrics_ids) ∨
    (song_id ∉ st.lyricFiles ∧ song_id ∉ st.bad_lyrics_ids ∧
      (process_song song_id st o).1.lyricFiles = st.lyricFiles ∧
      (process_song song_id st o).1.bad_lyrics_ids = song_id :: st.bad_lyrics_ids) := by
  by_cases h1 : song_id ∈ st.lyricFiles
  · refine Or.inl ⟨Or.inl h1, ?_⟩
    simp only [process_song, if_pos h1]
    by_cases h2 : ¬ songExists st.songsFs song_id = true ∧ song_id ∉ st.no_url_ids
    · simp only [if_pos h2]
      exact ⟨(tryUrlAndDownload_preserves song_id st o).1,
        (tryUrlAndDownload_preserves song_id st o).2⟩
    · simp only [if_neg h2]
      constructor <;> trivial
  · by_cases h2 : song_id ∈ st.bad_lyrics_ids
    · refine Or.inl ⟨Or.inr (Or.inl h2), ?_⟩
      simp only [process_song, if_neg h1, if_pos h2]
      constructor <;> trivial
    · cases hl : (get_song_lyric o.lyricResp).result with
      | none =>
        rw [process_song_none song_id st o h1 h2 hl]
        exact Or.inl ⟨Or.inr (Or.inr rfl), rfl, rfl⟩
      | some body =>
        have key :
            ((process_song song_id st o).1.lyricFiles = song_id :: st.lyricFiles ∧
              (process_song song_id st o).1.bad_lyrics_ids = st.bad_lyrics_ids) ∨
            ((process_song song_id st o).1.lyricFiles = st.lyricFiles ∧
              (process_song song_id st o).1.bad_lyrics_ids =
                song_id :: st.bad_lyrics_ids) := by
          simp only [process_song, if_neg h1, if_neg h2, hl]
          split_ifs with hg hg2
          all_goals first
            | exact Or.inl ⟨(tryUrlAndDownload_preserves song_id _ o).1,
                (tryUrlAndDownload_preserves song_id _ o).2⟩
            | exact Or.inl ⟨rfl, rfl⟩
            | exact Or.inr ⟨rfl, rfl⟩
        rcases key with ⟨ha, hb⟩ | ⟨ha, hb⟩
        · exact Or.inr (Or.inl ⟨h1, h2, ha, hb⟩)
        · exact Or.inr (Or.inr ⟨h1, h2, ha, hb⟩)

/-! ## C5 -/

/-- C5: one `process_song` call writes at most one of the two outcomes
— the lyric-artifact set and the rejected set never both grow — and
when the identifier is fresh and a payload arrives, exactly one of the
two receives it; consequently the disjointness of the rejected set and
the set of identifiers with a lyric artifact is preserved by every
call. -/
theorem c5_rejected_accepted_disjoint (song_id : SongId) (st : PipeState)
    (o : Oracle)
    (hdisj : ∀ x ∈ st.lyricFiles, x ∉ st.bad_lyrics_ids) :
    (∀ x ∈ ((process_song song_id st o).1).lyricFiles,
      x ∉ ((process_song song_id st o).1).bad_lyrics_ids) ∧
    (((process_song song_id st o).1).lyricFiles = st.lyricFiles ∨
      ((process_song song_id st o).1).bad_lyrics_ids = st.bad_lyrics_ids) ∧
    (song_id ∉ st.lyricFiles → song_id ∉ st.bad_lyrics_ids →
      (get_song_lyric o.lyricResp).result ≠ none →
      (song_id ∈ ((process_song song_id st o).1).lyricFiles ∧
        ((process_song song_id st o).1).bad_lyrics_ids = st.bad_lyrics_ids) ∨
      (song_id ∈ ((process_song song_id st o).1).bad_lyrics_ids ∧
        ((process_song song_id st o).1).lyricFiles = st.lyricFiles)) := by
  rcases process_song_effect song_id st o with
    ⟨hcase, ha, hb⟩ | ⟨h1, h2, ha, hb⟩ | ⟨h1, h2, ha, hb⟩
  · refine ⟨?_, Or.inl ha, ?_⟩
    · rw [ha, hb]
      exact hdisj
    · intro hn1 hn2 hsome
      rcases hcase with h | h | h
      · exact absurd h hn1
      · exact absurd h hn2
      · exact absurd h hsome
  · refine ⟨?_, Or.inr hb, ?_⟩
    · rw [ha, hb]
      intro x hx
      rcases List.mem_cons.mp hx with rfl | hx'
      · exact h2
      · exact hdisj x hx'
    · intro _ _ _
      exact Or.inl ⟨ha ▸ List.mem_cons_self song_id st.lyricFiles, hb⟩
  · refine ⟨?_, Or.inl ha, ?_⟩
    · rw [ha, hb]
      intro x hx hmem
      rcases List.mem_cons.mp hmem with rfl | hmem'
      · exact h1 hx
      · exact hdisj x hx hmem'
    · intro _ _ _
      exact Or.inr ⟨hb ▸ List.mem_cons_self song_id st.bad_lyrics_ids, ha⟩

/-- C5 witness: disjointness preservation on a concrete state whose
oracle rejects the fetched lyric. -/
theorem c5_rejected_accepted_disjoint_witness :
    (∀ x ∈ ((process_song (("7").data) st0 o0).1).lyricFiles,
      x ∉ ((process_song (("7").data) st0 o0).1).bad_lyrics_ids) ∧
    (((process_song (("7").data) st0 o0).1).lyricFiles = st0.lyricFiles ∨
      ((process_song (("7").data) st0 o0).1).bad_lyrics_ids = st0.bad_lyrics_ids) ∧
    ((("7").data) ∉ st0.lyricFiles → (("7").data) ∉ st0.bad_lyrics_ids →
      (get_song_lyric o0.lyricResp).result ≠ none →
      ((("7").data) ∈ ((process_song (("7").data) st0 o0).1).lyricFiles ∧
        ((process_song (("7").data) st0 o0).1).bad_lyrics_ids = st0.bad_lyrics_ids) ∨
      ((("7").data) ∈ ((process_song (("7").data) st0 o0).1).bad_lyrics_ids ∧
        ((process_song (("7").data) st0 o0).1).lyricFiles = st0.lyricFiles)) :=
  c5_rejected_accepted_disjoint (("7").data) st0 o0 (by simp [st0])

/-! ## C6 -/

/-- C6: the lyric fetch makes at most `MAX_RETRIES = 3` attempts with a
fixed `RETRY_DELAY = 2` second sleep between consecutive attempts; a
non-200 HTTP status or an exception is retried, while an HTTP 200
response whose body `code` is not 200 returns `None` after that single
attempt with no further retry; and a fresh identifier whose lyric fetch
returns `None` is a terminal failure for the run that leaves the
rejected set (and the whole state) unchanged. -/
theorem c6_lyric_fetch_retry (resp : Nat → ApiResp LyricBody) :
    (get_song_lyric resp).attempts ≤ MAX_RETRIES ∧
    (get_song_lyric resp).delay =
      RETRY_DELAY * ((get_song_lyric resp).attempts - 1) ∧
    (∀ body, resp 0 = ApiResp.ok body → body.code ≠ 200 →
      get_song_lyric resp = ⟨none, 1, 0⟩) ∧
    (∀ k body, k < MAX_RETRIES → (∀ j, j < k → ∀ b, resp j ≠ ApiResp.ok b) →
      resp k = ApiResp.ok body →
      (get_song_lyric resp).attempts = k + 1 ∧
      (get_song_lyric resp).result =
        (if body.code = 200 then some body else none)) ∧
    ((∀ j, j < MAX_RETRIES → ∀ b, resp j ≠ ApiResp.ok b) →
      get_song_lyric resp =
        ⟨none, MAX_RETRIES, RETRY_DELAY * (MAX_RETRIES - 1)⟩) ∧
    (∀ (song_id : SongId) (st : PipeState) (o : Oracle),
      song_id ∉ st.lyricFiles → song_id ∉ st.bad_lyrics_ids →
      (get_song_lyric o.lyricResp).result = none →
      process_song song_id st o = (st, false)) := by
  have hcases := get_song_lyric_cases resp
  refine ⟨?_, ?_, ?_, ?_, ?_, ?_⟩
  · rcases hcases with ⟨b, _, hv⟩ | ⟨_, b, _, hv⟩ | ⟨_, _, b, _, hv⟩ |
      ⟨_, _, _, hv⟩ <;> rw [hv] <;> simp [MAX_RETRIES]
  · rcases hcases with ⟨b, _, hv⟩ | ⟨_, b, _, hv⟩ | ⟨_, _, b, _, hv⟩ |
      ⟨_, _, _, hv⟩ <;> rw [hv] <;> simp [RETRY_DELAY]
  · intro body h0 hcode
    rcases hcases with ⟨b, hb, hv⟩ | ⟨htr, _⟩ | ⟨htr, _⟩ | ⟨htr, _⟩
    · rw [h0] at hb
      cases hb
      rw [hv, if_neg hcode]
    · exact absurd h0 (htr body)
    · exact absurd h0 (htr body)
    · exact absurd h0 (htr body)
  · intro k body hk hprev hdec
    simp only [MAX_RETRIES] at hk
    interval_cases k
    · rcases hcases with ⟨b, hb, hv⟩ | ⟨htr, _⟩ | ⟨htr, _⟩ | ⟨htr, _⟩
      · rw [hdec] at hb
        cases hb
        rw [hv]
        exact ⟨rfl, rfl⟩
      · exact absurd hdec (htr body)
      · exact absurd hdec (htr body)
      · exact absurd hdec (htr body)
    · rcases hcases with ⟨b, hb, hv⟩ | ⟨_, b, hb, hv⟩ | ⟨_, htr, _⟩ |
        ⟨_, htr, _⟩
      · exact absurd hb (hprev 0 (by norm_num) b)
      · rw [hdec] at hb
        cases hb
        rw [hv]
        exact ⟨rfl, rfl⟩
      · exact absurd hdec (htr body)
      · exact absurd hdec (htr body)
    · rcases hcases with ⟨b, hb, hv⟩ | ⟨_, b, hb, hv⟩ | ⟨_, _, b, hb, hv⟩ |
        ⟨_, _, htr, _⟩
      · exact absurd hb (hprev 0 (by norm_num) b)
      · exact absurd hb (hprev 1 (by norm_num) b)
      · rw [hdec] at hb
        cases hb
        rw [hv]
        exact ⟨rfl, rfl⟩
      · exact absurd hdec (htr body)
  · intro hall
    rcases hcases with ⟨b, hb, hv⟩ | ⟨_, b, hb, hv⟩ | ⟨_, _, b, hb, hv⟩ |
      ⟨_, _, _, hv⟩
    · exact absurd hb (hall 0 (by norm_num [MAX_RETRIES]) b)
    · exact absurd hb (hall 1 (by norm_num [MAX_RETRIES]) b)
    · exact absurd hb (hall 2 (by norm_num [MAX_RETRIES]) b)
    · rw [hv]
      norm_num [MAX_RETRIES, RETRY_DELAY]
  · exact process_song_none

/-- C6 witness: an HTTP 200 response with body code 404 returns `None`
after one attempt, and the fresh identifier stays out of the rejected
set. -/
theorem c6_lyric_fetch_retry_witness :
    get_song_lyric (fun _ => ApiResp.ok { code := 404, lrc := none }) =
      ⟨none, 1, 0⟩ ∧
    process_song (("7").data) st0
      { o0 with lyricResp := fun _ => ApiResp.ok { code := 404, lrc := none } } =
      (st0, false) :=
  ⟨(c6_lyric_fetch_retry (fun _ => ApiResp.ok { code := 404, lrc := none })).2.2.1
      { code := 404, lrc := none } rfl (by norm_num),
   (c6_lyric_fetch_retry (fun _ => ApiResp.ok { code := 404, lrc := none })).2.2.2.2.2
      (("7").data) st0 _ (by simp [st0]) (by simp [st0]) (by decide)⟩

/-- A decisive attempt ends the URL fetch loop at once with the
first-decisive outcome. -/
lemma get_song_urlAux_ok (song_id : SongId) (resp : Nat → ApiResp UrlBody)
    (a n : Nat) (noUrl : List SongId) (b : UrlBody)
    (h : resp a = ApiResp.ok b) :
    get_song_urlAux song_id resp a (n + 1) noUrl = urlOutcome song_id noUrl b 0 := by
  by_cases hu : hasUsableUrl b = true <;>
    simp [get_song_urlAux, urlOutcome, h, hu]

/-- A transient attempt with budget remaining sleeps and retries. -/
lemma get_song_urlAux_transient (song_id : SongId)
    (resp : Nat → ApiResp UrlBody) (a n : Nat) (noUrl : List SongId)
    (h : ∀ b, resp a ≠ ApiResp.ok b) (hn : n ≠ 0) :
    get_song_urlAux song_id resp a (n + 1) noUrl =
      ⟨(get_song_urlAux song_id resp (a + 1) n noUrl).result,
        (get_song_urlAux song_id resp (a + 1) n noUrl).no_url_ids,
        (get_song_urlAux song_id resp (a + 1) n noUrl).attempts + 1,
        (get_song_urlAux song_id resp (a + 1) n noUrl).delay + RETRY_DELAY⟩ := by
  cases hr : resp a with
  | ok b => exact absurd hr (h b)
  | httpError s => simp [get_song_urlAux, hr, hn]
  | exn => simp [get_song_urlAux, hr, hn]

/-- A transient final attempt ends the URL fetch loop with `None` and
no permanent record. -/
lemma get_song_urlAux_transient_last (song_id : SongId)
    (resp : Nat → ApiResp UrlBody) (a : Nat) (noUrl : List SongId)
    (h : ∀ b, resp a ≠ ApiResp.ok b) :
    get_song_urlAux song_id resp a 1 noUrl = ⟨none, noUrl, 1, 0⟩ := by
  cases hr : resp a with
  | ok b => exact absurd hr (h b)
  | httpError s => simp [get_song_urlAux, hr]
  | exn => simp [get_song_urlAux, hr]

/-- Complete case analysis of `get_song_url` for an identifier not yet
known to lack a URL. -/
lemma get_song_url_cases (song_id : SongId) (resp : Nat → ApiResp UrlBody)
    (noUrl : List SongId) (hmem : song_id ∉ noUrl) :
    (∃ b, resp 0 = ApiResp.ok b ∧
      get_song_url song_id resp noUrl = urlOutcome song_id noUrl b 0) ∨
    ((∀ b, resp 0 ≠ ApiResp.ok b) ∧ ∃ b, resp 1 = ApiResp.ok b ∧
      get_song_url song_id resp noUrl = urlOutcome song_id noUrl b 1) ∨
    ((∀ b, resp 0 ≠ ApiResp.ok b) ∧ (∀ b, resp 1 ≠ ApiResp.ok b) ∧
      ∃ b, resp 2 = ApiResp.ok b ∧
      get_song_url song_id resp noUrl = urlOutcome song_id noUrl b 2) ∨
    ((∀ b, resp 0 ≠ ApiResp.ok b) ∧ (∀ b, resp 1 ≠ ApiResp.ok b) ∧
      (∀ b, resp 2 ≠ ApiResp.ok b) ∧
      get_song_url song_id resp noUrl = ⟨none, noUrl, 3, 2 * RETRY_DELAY⟩) := by
  have hu : get_song_url song_id resp noUrl =
      get_song_urlAux song_id resp 0 3 noUrl := by
    rw [get_song_url, if_neg hmem]
    rfl
  rcases apiResp_cases (resp 0) with ⟨b0, h0⟩ | h0
  · refine Or.inl ⟨b0, h0, ?_⟩
    rw [hu]
    exact get_song_urlAux_ok song_id resp 0 2 noUrl b0 h0
  · rcases apiResp_cases (resp 1) with ⟨b1, h1⟩ | h1
    · refine Or.inr (Or.inl ⟨h0, b1, h1, ?_⟩)
      rw [hu, show (3 : Nat) = 2 + 1 from rfl,
        get_song_urlAux_transient song_id resp 0 2 noUrl h0 (by norm_num),
        get_song_urlAux_ok song_id resp 1 1 noUrl b1 h1]
      by_cases hus : hasUsableUrl b1 = true <;>
        simp [urlOutcome, hus, RETRY_DELAY]
    · rcases apiResp_cases (resp 2) with ⟨b2, h2⟩ | h2
      · refine Or.inr (Or.inr (Or.inl ⟨h0, h1, b2, h2, ?_⟩))
        rw [hu, show (3 : Nat) = 2 + 1 from rfl,
          get_song_urlAux_transient song_id resp 0 2 noUrl h0 (by norm_num),
          show (2 : Nat) = 1 + 1 from rfl,
          get_song_urlAux_transient song_id resp 1 1 noUrl h1 (by norm_num),
          get_song_urlAux_ok song_id resp 2 0 noUrl b2 h2]
        by_cases hus : hasUsableUrl b2 = true <;>
          simp [urlOutcome, hus, RETRY_DELAY]
      · refine Or.inr (Or.inr (Or.inr ⟨h0, h1, h2, ?_⟩))
        rw [hu, show (3 : Nat) = 2 + 1 from rfl,
          get_song_urlAux_transient song_id resp 0 2 noUrl h0 (by norm_num),
          show (2 : Nat) = 1 + 1 from rfl,
          get_song_urlAux_transient song_id resp 1 1 noUrl h1 (by norm_num),
          get_song_urlAux_transient_last song_id resp 2 noUrl h2]
        simp [RETRY_DELAY]

/-! ## C7 -/

/-- C7: an identifier already in `no_url_ids` makes the URL fetch
return `None` with zero network attempts; an HTTP 200 response lacking
a usable URL (such as `{code:200, data:[{url:null}]}`) adds the
identifier to `no_url_ids` at that very attempt with no further retry;
any subsequent call with the identifier in the set performs no network
attempt; transient failures are retried up to `MAX_RETRIES = 3`
attempts, and exhausting them changes no permanent set. -/
theorem c7_url_unavailable (song_id : SongId) (resp : Nat → ApiResp UrlBody)
    (noUrl : List SongId) :
    (song_id ∈ noUrl →
      get_song_url song_id resp noUrl = ⟨none, noUrl, 0, 0⟩) ∧
    (get_song_url song_id resp noUrl).attempts ≤ MAX_RETRIES ∧
    (∀ k body, k < MAX_RETRIES → (∀ j, j < k → ∀ b, resp j ≠ ApiResp.ok b) →
      resp k = ApiResp.ok body → hasUsableUrl body = false →
      song_id ∉ noUrl →
      get_song_url song_id resp noUrl =
        ⟨none, song_id :: noUrl, k + 1, RETRY_DELAY * k⟩) ∧
    (∀ resp2 : Nat → ApiResp UrlBody,
      get_song_url song_id resp2 (song_id :: noUrl) =
        ⟨none, song_id :: noUrl, 0, 0⟩) ∧
    ((∀ j, j < MAX_RETRIES → ∀ b, resp j ≠ ApiResp.ok b) → song_id ∉ noUrl →
      get_song_url song_id resp noUrl =
        ⟨none, noUrl, MAX_RETRIES, RETRY_DELAY * (MAX_RETRIES - 1)⟩) := by
  refine ⟨?_, ?_, ?_, ?_, ?_⟩
  · intro hmem
    rw [get_song_url, if_pos hmem]
  · by_cases hmem : song_id ∈ noUrl
    · rw [get_song_url, if_pos hmem]
      simp [MAX_RETRIES]
    · rcases get_song_url_cases song_id resp noUrl hmem with
        ⟨b, _, hv⟩ | ⟨_, b, _, hv⟩ | ⟨_, _, b, _, hv⟩ | ⟨_, _, _, hv⟩ <;>
        rw [hv] <;>
        first
          | (by_cases hus : hasUsableUrl b = true <;>
              simp [urlOutcome, hus, MAX_RETRIES])
          | simp [MAX_RETRIES]
  · intro k body hk hprev hdec hbad hmem
    simp only [MAX_RETRIES] at hk
    interval_cases k
    · rcases get_song_url_cases song_id resp noUrl hmem with
        ⟨b, hb, hv⟩ | ⟨htr, _⟩ | ⟨htr, _⟩ | ⟨htr, _⟩
      · rw [hdec] at hb
        cases hb
        rw [hv, urlOutcome, if_neg (by simp [hbad])]
      · exact absurd hdec (htr body)
      · exact absurd hdec (htr body)
      · exact absurd hdec (htr body)
    · rcases get_song_url_cases song_id resp noUrl hmem with
        ⟨b, hb, hv⟩ | ⟨_, b, hb, hv⟩ | ⟨_, htr, _⟩ | ⟨_, htr, _⟩
      · exact absurd hb (hprev 0 (by norm_num) b)
      · rw [hdec] at hb
        cases hb
        rw [hv, urlOutcome, if_neg (by simp [hbad])]
      · exact absurd hdec (htr body)
      · exact absurd hdec (htr body)
    · rcases get_song_url_cases song_id resp noUrl hmem with
        ⟨b, hb, hv⟩ | ⟨_, b, hb, hv⟩ | ⟨_, _, b, hb, hv⟩ | ⟨_, _, htr, _⟩
      · exact absurd hb (hprev 0 (by norm_num) b)
      · exact absurd hb (hprev 1 (by norm_num) b)
      · rw [hdec] at hb
        cases hb
        rw [hv, urlOutcome, if_neg (by simp [hbad])]
      · exact absurd hdec (htr body)
  · intro resp2
    rw [get_song_url, if_pos (List.mem_cons_self song_id noUrl)]
  · intro hall hmem
    rcases get_song_url_cases song_id resp noUrl hmem with
      ⟨b, hb, hv⟩ | ⟨_, b, hb, hv⟩ | ⟨_, _, b, hb, hv⟩ | ⟨_, _, _, hv⟩
    · exact absurd hb (hall 0 (by norm_num [MAX_RETRIES]) b)
    · exact absurd hb (hall 1 (by norm_num [MAX_RETRIES]) b)
    · exact absurd hb (hall 2 (by norm_num [MAX_RETRIES]) b)
    · rw [hv]
      norm_num [MAX_RETRIES, RETRY_DELAY]

/-- C7 witness: a first-attempt `{code:200, data:[{url:null}]}` body
records the identifier, and the follow-up call does nothing. -/
theorem c7_url_unavailable_witness :
    get_song_url (("9").data)
      (fun _ => ApiResp.ok { code := 200, data := [⟨none, none, none, none⟩] }) [] =
      ⟨none, [("9").data], 1, 0⟩ ∧
    get_song_url (("9").data) (fun _ => ApiResp.exn) [("9").data] =
      ⟨none, [("9").data], 0, 0⟩ :=
  ⟨by
    have h := (c7_url_unavailable (("9").data)
      (fun _ => ApiResp.ok { code := 200, data := [⟨none, none, none, none⟩] })
      []).2.2.1 0 { code := 200, data := [⟨none, none, none, none⟩] }
      (by norm_num [MAX_RETRIES]) (by intro j hj b; omega) rfl (by decide)
      (by simp)
    simpa using h,
   by
    have h := (c7_url_unavailable (("9").data)
      (fun _ => ApiResp.exn) []).2.2.2.1 (fun _ => ApiResp.exn)
    simpa using h⟩

/-! ## C8 -/

/-- The download loop, once entered, makes at least one attempt. -/
lemma download_songAux_attempts_pos (song_path : List Char)
    (resp : Nat → DlResp) (a n : Nat) (fs : FileSys) (hn : n ≠ 0) :
    1 ≤ (download_songAux song_path resp a n fs).attempts := by
  cases n with
  | zero => exact absurd rfl hn
  | succ m =>
    cases hr : resp a with
    | ok sz => simp [download_songAux, hr]
    | httpError s =>
      by_cases hm : m = 0 <;> simp [download_songAux, hr, hm]
    | exn =>
      by_cases hm : m = 0 <;> simp [download_songAux, hr, hm]

/-- C8: when the final audio file already exists, an unknown or
matching expected size returns the existing path with no deletion and
no download attempt; a size mismatch deletes the stale file and enters
the download loop, which then makes at least one fresh attempt. -/
theorem c8_size_check (song_data : SongData) (fs : FileSys)
    (resp : Nat → DlResp) (file_size : Nat)
    (hex : fsLookup fs (song_data.id ++ '.' :: fileTypeOf song_data.type) =
      some file_size) :
    ((song_data.size = none ∨ song_data.size = some file_size) →
      download_song song_data fs resp =
        ⟨some (song_data.id ++ '.' :: fileTypeOf song_data.type), fs, 0, 0⟩) ∧
    (∀ expected_size, song_data.size = some expected_size →
      expected_size ≠ file_size →
      download_song song_data fs resp =
        download_songAux (song_data.id ++ '.' :: fileTypeOf song_data.type)
          resp 0 MAX_RETRIES
          (fsErase fs (song_data.id ++ '.' :: fileTypeOf song_data.type)) ∧
      1 ≤ (download_song song_data fs resp).attempts) := by
  constructor
  · intro hsz
    rcases hsz with hnone | hmatch
    · simp [download_song, hex, hnone]
    · simp [download_song, hex, hmatch]
  · intro expected_size hsz hne
    have heq : download_song song_data fs resp =
        download_songAux (song_data.id ++ '.' :: fileTypeOf song_data.type)
          resp 0 MAX_RETRIES
          (fsErase fs (song_data.id ++ '.' :: fileTypeOf song_data.type)) := by
      simp [download_song, hex, hsz, Ne.symm hne]
    refine ⟨heq, ?_⟩
    rw [heq]
    exact download_songAux_attempts_pos _ resp 0 MAX_RETRIES _
      (by norm_num [MAX_RETRIES])

/-- C8 witness: for the existing 5-byte file, an unknown expected size
skips the download, while expected size 7 deletes and re-enters the
loop. -/
theorem c8_size_check_witness :
    download_song c8unknown c8fs (fun _ => DlResp.exn) =
      ⟨some (("1.mp3").data), c8fs, 0, 0⟩ ∧
    download_song c8mismatch c8fs (fun _ => DlResp.exn) =
      download_songAux (("1.mp3").data) (fun _ => DlResp.exn) 0 MAX_RETRIES
        (fsErase c8fs (("1.mp3").data)) ∧
    1 ≤ (download_song c8mismatch c8fs (fun _ => DlResp.exn)).attempts :=
  ⟨(c8_size_check c8unknown c8fs (fun _ => DlResp.exn) 5 (by decide)).1
      (Or.inl rfl),
   ((c8_size_check c8mismatch c8fs (fun _ => DlResp.exn) 5 (by decide)).2
      7 rfl (by norm_num)).1,
   ((c8_size_check c8mismatch c8fs (fun _ => DlResp.exn) 5 (by decide)).2
      7 rfl (by norm_num)).2⟩

end CombinedPipeline
